import Mathlib

/-!
Shallow embedding of the university-report-generator pipeline
(data_processor.py, report_generator.py, data_aggregator.py) and proofs
about its cleaning, analysis, generation, retry, validation and ingestion
logic.

Modelling conventions:
- pandas DataFrames are lists of named, typed columns; a cell is `none`
  when it is NaN / missing.
- Python floats are modelled as exact rationals (ℚ).  Rational arithmetic
  is implemented through `Rat.divInt` so that every definition evaluates
  inside the kernel.
- Python strings are Lean `String`s; the `re` patterns used by the code
  are implemented directly as character-list scanners with the same
  search/findall semantics.
- External effects (network fetches, the generation API, time.sleep) are
  inputs: each fallible call becomes an `Option`/`Except` valued argument
  describing what the outside world does.
-/

namespace UniReport

/-! ## Character and string utilities -/

/-- ASCII whitespace, the characters Python's regex `\s` and `str.strip`
match on ASCII text. -/
def isPySpace (c : Char) : Bool :=
  c = ' ' || c = '\t' || c = '\n' || c = '\r' || c = '\x0b' || c = '\x0c'

/-- ASCII digit, Python's regex `\d` on ASCII text. -/
def isDigitChar (c : Char) : Bool := '0' ≤ c && c ≤ '9'

/-- ASCII letter, the regex class `[A-Za-z]`. -/
def isAsciiLetter (c : Char) : Bool := ('A' ≤ c && c ≤ 'Z') || ('a' ≤ c && c ≤ 'z')

/-- Character-wise ASCII lower-casing (`str.lower` on the ASCII range). -/
def lowerChar (c : Char) : Char :=
  if 'A' ≤ c && c ≤ 'Z' then Char.ofNat (c.toNat + 32) else c

/-- Models `str.lower`. -/
def strLower (s : String) : String := String.mk (s.data.map lowerChar)

/-- Does `needle` occur at the very start of `hay`? -/
def prefixAt : List Char → List Char → Bool
  | [], _ => true
  | _ :: _, [] => false
  | a :: as, b :: bs => a = b && prefixAt as bs

/-- Substring occurrence on character lists. -/
def subList (needle : List Char) : List Char → Bool
  | [] => needle.isEmpty
  | c :: rest => prefixAt needle (c :: rest) || subList needle rest

/-- Models Python's `needle in hay` substring test. -/
def containsSub (hay needle : String) : Bool := subList needle.data hay.data

/-- Value of a list of ASCII digits, most significant first. -/
def digitsToNat (ds : List Char) : Nat :=
  ds.foldl (fun n c => 10 * n + (c.toNat - '0'.toNat)) 0

/-- Models Python's `"\n".join(lines)`. -/
def joinLines : List String → String
  | [] => ""
  | [l] => l
  | l :: ls => l ++ "\n" ++ joinLines ls

/-- Models Python's `" ".join(parts)`. -/
def joinSpace : List String → String
  | [] => ""
  | [l] => l
  | l :: ls => l ++ " " ++ joinSpace ls

/-! ## Kernel-computable rational arithmetic

`Rat.divInt` normalises and evaluates inside the kernel, so the pipeline's
float arithmetic is expressed through it.  The operations below agree with
the field operations of ℚ; they model CPython/numpy float arithmetic by its
exact real value (rounding error of binary floats is not modelled). -/

def qadd (a b : ℚ) : ℚ := Rat.divInt (a.num * b.den + b.num * a.den) (a.den * b.den)

def qsub (a b : ℚ) : ℚ := Rat.divInt (a.num * b.den - b.num * a.den) (a.den * b.den)

def qmul (a b : ℚ) : ℚ := Rat.divInt (a.num * b.num) (a.den * b.den)

def qdiv (a b : ℚ) : ℚ := Rat.divInt (a.num * b.den) (a.den * b.num)

def qneg (a : ℚ) : ℚ := Rat.divInt (-a.num) a.den

def intQ (n : ℤ) : ℚ := Rat.divInt n 1

def natQ (n : ℕ) : ℚ := Rat.divInt n 1

def qsum (l : List ℚ) : ℚ := l.foldl qadd 0

/-- Ten to an integer power, as a rational. -/
def qpow10 (e : ℤ) : ℚ :=
  if 0 ≤ e then intQ ((10 : ℤ) ^ e.toNat) else Rat.divInt 1 ((10 : ℤ) ^ (-e).toNat)

/-! ## Numeric parsing (pandas.to_numeric on a single string) -/

/-- Exponent suffix of a float literal: either empty, or `(e|E)[+-]?digits`.
Returns the exponent when the remainder has exactly this shape. -/
def parseExpPart : List Char → Option ℤ
  | [] => some 0
  | c :: rest =>
    if c = 'e' || c = 'E' then
      let (sgn, ds) : ℤ × List Char :=
        match rest with
        | '+' :: r => (1, r)
        | '-' :: r => (-1, r)
        | r => (1, r)
      if !ds.isEmpty && ds.all isDigitChar then some (sgn * digitsToNat ds) else none
    else none

/-- Unsigned decimal literal with optional fraction and exponent, consuming
the whole input. -/
def parseDecimal (cs : List Char) : Option ℚ :=
  let ipart := cs.takeWhile isDigitChar
  let rest1 := cs.drop ipart.length
  match rest1 with
  | '.' :: rest2 =>
    let fpart := rest2.takeWhile isDigitChar
    let rest3 := rest2.drop fpart.length
    if ipart.isEmpty && fpart.isEmpty then none
    else
      (parseExpPart rest3).map fun e =>
        qmul (Rat.divInt (digitsToNat (ipart ++ fpart)) ((10 : ℤ) ^ fpart.length)) (qpow10 e)
  | _ =>
    if ipart.isEmpty then none
    else (parseExpPart rest1).map fun e => qmul (intQ (digitsToNat ipart)) (qpow10 e)

/-- Models `pandas.to_numeric` applied to one string: surrounding whitespace
is ignored, `"nan"` in any letter case parses to a missing value, and
otherwise an optionally signed decimal literal with optional exponent is
accepted.  `some none` is a parsed NaN, `some (some q)` a parsed number and
`none` a parse failure (where `to_numeric` raises).  Special spellings such
as `"inf"` are rejected: they have no rational value and do not occur in
the CSV data this pipeline ingests. -/
def parseNumeric (s : String) : Option (Option ℚ) :=
  let cs := ((s.data.dropWhile isPySpace).reverse.dropWhile isPySpace).reverse
  if cs.map lowerChar = "nan".data then some none
  else
    match cs with
    | '+' :: r => (parseDecimal r).map fun q => some q
    | '-' :: r => (parseDecimal r).map fun q => some (qneg q)
    | r => (parseDecimal r).map fun q => some q

/-! ## DataProcessor tables and clean_data -/

/-- One DataFrame column: numeric dtype or object (text) dtype.  A `none`
cell is NaN / missing. -/
inductive PCol
  | num (cells : List (Option ℚ))
  | text (cells : List (Option String))
  deriving DecidableEq

/-- A DataFrame: named columns in order, all of the same length. -/
abbrev PTable := List (String × PCol)

/-- Cells of a column as untyped values, for row comparisons. -/
def PCol.vals : PCol → List (Option (ℚ ⊕ String))
  | .num cs => cs.map (Option.map Sum.inl)
  | .text cs => cs.map (Option.map Sum.inr)

def PCol.size : PCol → Nat
  | .num cs => cs.length
  | .text cs => cs.length

/-- Is every cell of the column missing? (`df[col].isna().all()`). -/
def PCol.isAllMissing : PCol → Bool
  | .num cs => cs.all Option.isNone
  | .text cs => cs.all Option.isNone

/-- Keep the elements whose mask entry is `true`. -/
def maskFilter (mask : List Bool) (cs : List α) : List α :=
  ((mask.zip cs).filter (·.1)).map (·.2)

def PCol.filterMask (mask : List Bool) : PCol → PCol
  | .num cs => .num (maskFilter mask cs)
  | .text cs => .text (maskFilter mask cs)

def nRows (t : PTable) : Nat := (t.map fun c => c.2.size).foldr max 0

/-- Row `i` of the table, one untyped cell per column. -/
def rowAt (t : PTable) (i : Nat) : List (Option (ℚ ⊕ String)) :=
  t.map fun c => c.2.vals.getD i none

def rowsOf (t : PTable) : List (List (Option (ℚ ⊕ String))) :=
  (List.range (nRows t)).map (rowAt t)

/-- Keep-first mask over rows: entry `i` is `true` iff row `i` did not occur
earlier.  Models `df.drop_duplicates()` (pandas keeps the first occurrence
and treats NaN cells as equal when comparing rows, as `Option.none` is
here). -/
def firstMask (seen : List (List (Option (ℚ ⊕ String)))) :
    List (List (Option (ℚ ⊕ String))) → List Bool
  | [] => []
  | r :: rs => (!seen.contains r) :: firstMask (r :: seen) rs

/-- Models `df.drop_duplicates()`. -/
def dropDuplicates (t : PTable) : PTable :=
  let mask := firstMask [] (rowsOf t)
  t.map fun c => (c.1, c.2.filterMask mask)

/-- Models `df.dropna(axis=1, how='all')`. -/
def dropAllMissingCols (t : PTable) : PTable :=
  t.filter fun c => !c.2.isAllMissing

/-- Models one cell of `df[col].astype(str).str.replace(',', '.', regex=True)`:
a missing cell stringifies to `"nan"`, then every comma becomes a period. -/
def substOne (c : Option String) : String :=
  String.mk ((match c with | none => "nan" | some s => s).data.map
    fun ch => if ch = ',' then '.' else ch)

/-- Models the numeric-coercion loop body of `DataProcessor.clean_data`
(lines 91-97): object columns are stringified with commas replaced by
periods; if `pd.to_numeric` succeeds on every entry the column becomes
numeric, otherwise the column is assigned the substituted strings. -/
def coerceCol : PCol → PCol
  | .num cs => .num cs
  | .text cs =>
    let strs := cs.map substOne
    match strs.mapM parseNumeric with
    | some qs => .num qs
    | none => .text (strs.map some)

/-- Models `df[col].fillna(df[col].mean())` for a numeric column: the mean is
taken over present values; a column with no present value keeps its NaNs
(filling with NaN changes nothing). -/
def meanImputeCells (cs : List (Option ℚ)) : List (Option ℚ) :=
  let present := cs.filterMap id
  match present with
  | [] => cs
  | _ => cs.map fun c => some (c.getD (qdiv (qsum present) (natQ present.length)))

def countOcc (l : List String) (v : String) : Nat := (l.filter (· = v)).length

/-- First-occurrence deduplication, preserving order. -/
def keepFirstAux (seen : List String) : List String → List String
  | [] => []
  | a :: l =>
    if seen.contains a then keepFirstAux seen l else a :: keepFirstAux (a :: seen) l

/-- Lexicographic character order, used to model that `Series.mode()` returns
the most frequent values sorted ascending, of which the code takes index 0. -/
def lexLt : List Char → List Char → Bool
  | [], [] => false
  | [], _ :: _ => true
  | _ :: _, [] => false
  | a :: as, b :: bs => if a = b then lexLt as bs else decide (a < b)

/-- Models `series.mode()[0]`: a most frequent value, smallest one on ties;
`none` when the list is empty. -/
def modeOf (l : List String) : Option String :=
  (keepFirstAux [] l).foldl
    (fun acc v =>
      match acc with
      | none => some v
      | some b =>
        if countOcc l v > countOcc l b then some v
        else if countOcc l v = countOcc l b && lexLt v.data b.data then some v
        else acc)
    none

/-- Models lines 104-109 of `DataProcessor.clean_data` for one object column:
if the column has any missing value, fill with the mode of its present
values, or with the empty string when no value is present. -/
def modeImputeCells (cs : List (Option String)) : List (Option String) :=
  if cs.any Option.isNone then
    cs.map fun c => some (c.getD ((modeOf (cs.filterMap id)).getD ""))
  else cs

/-- Mean-imputation step (lines 99-102): numeric columns only. -/
def imputeCol : PCol → PCol
  | .num cs => .num (meanImputeCells cs)
  | .text cs => .text cs

/-- Mode-imputation step (lines 104-109): object columns only. -/
def modeImputeCol : PCol → PCol
  | .num cs => .num cs
  | .text cs => .text (modeImputeCells cs)

/-- Models `DataProcessor.clean_data`: drop duplicate rows, drop all-missing
columns, attempt numeric coercion of object columns, mean-impute numeric
columns, mode-impute object columns. -/
def clean_data (df : PTable) : PTable :=
  let df1 := dropAllMissingCols (dropDuplicates df)
  let df2 := df1.map fun c => (c.1, coerceCol c.2)
  let df3 := df2.map fun c => (c.1, imputeCol c.2)
  df3.map fun c => (c.1, modeImputeCol c.2)

/-! ## DataProcessor._detect_data_type -/

def student_keywords : List String :=
  ["student", "mahasiswa", "nama", "grade", "nilai", "ipk", "gpa"]

def finance_keywords : List String :=
  ["finance", "keuangan", "biaya", "pembayaran", "tagihan", "revenue", "expense"]

def akreditasi_keywords : List String :=
  ["akreditasi", "program", "dosen", "kurikulum", "sk", "unggul", "prodi"]

/-- The `' '.join(columns_lower)` search string. -/
def joinedCols (cols : List String) : String := joinSpace (cols.map strLower)

def is_student_match (cols : List String) : Bool :=
  student_keywords.any fun k => containsSub (joinedCols cols) k

def is_finance_match (cols : List String) : Bool :=
  finance_keywords.any fun k => containsSub (joinedCols cols) k

def is_akreditasi_match (cols : List String) : Bool :=
  akreditasi_keywords.any fun k => containsSub (joinedCols cols) k

/-- Models `DataProcessor._detect_data_type` as a function of the column
names. -/
def detect_data_type (cols : List String) : String :=
  if ((if is_student_match cols then 1 else 0) : Nat)
      + (if is_finance_match cols then 1 else 0)
      + (if is_akreditasi_match cols then 1 else 0) > 1 then "mixed"
  else if is_student_match cols then "student"
  else if is_finance_match cols then "finance"
  else if is_akreditasi_match cols then "akreditasi"
  else "unknown"

/-! ## DataProcessor.analyze_data and get_data_summary_for_ai -/

/-- Per-numeric-column statistics (`analysis['statistics'][col]`). -/
structure NumStats where
  mean : ℚ
  median : ℚ
  min : ℚ
  max : ℚ
  std : ℚ
  missing : Nat
  deriving DecidableEq

/-- Per-text-column summary (`analysis['summary'][col]`). -/
structure CatSummary where
  unique_values : Nat
  most_common : Option String
  most_common_count : Nat
  missing : Nat
  deriving DecidableEq

/-- The analysis dictionary built by `DataProcessor.analyze_data`, which is
also the `data_summary` argument of `generate_report` and `validate_report`
(main.py passes the analysis straight through).  `validate_report` probes
the dictionary for the optional keys `"departments"` and `"total_students"`
with `.get`; an absent key is modelled as `none`. -/
structure DataSummary where
  row_count : Nat
  column_count : Nat
  columns : List String
  statistics : List (String × NumStats)
  summary : List (String × CatSummary)
  detected_type : String
  departments : Option (List String) := none
  total_students : Option ℤ := none
  deriving DecidableEq

def insertSorted (q : ℚ) : List ℚ → List ℚ
  | [] => [q]
  | x :: xs => if q ≤ x then q :: x :: xs else x :: insertSorted q xs

def sortQ (l : List ℚ) : List ℚ := l.foldr insertSorted []

/-- Models `Series.median()` over the present values: the middle element, or
the average of the two middle elements. -/
def medianOf (l : List ℚ) : ℚ :=
  let s := sortQ l
  let n := s.length
  if n % 2 = 1 then s.getD (n / 2) 0
  else qdiv (qadd (s.getD (n / 2 - 1) 0) (s.getD (n / 2) 0)) (natQ 2)

def minOf (l : List ℚ) : ℚ := match l with | [] => 0 | x :: xs => xs.foldl min x

def maxOf (l : List ℚ) : ℚ := match l with | [] => 0 | x :: xs => xs.foldl max x

/-- Statistics of one numeric column.  `stdFn` abstracts `Series.std()`,
whose square root has no exact rational value; everything else is
computed over the present (non-missing) values exactly as pandas does.
For a column with no present value pandas reports NaN statistics; this
embedding is only applied after cleaning drops all-missing columns. -/
def numStatsOf (stdFn : List ℚ → ℚ) (cs : List (Option ℚ)) : NumStats :=
  let present := cs.filterMap id
  { mean := qdiv (qsum present) (natQ present.length)
    median := medianOf present
    min := minOf present
    max := maxOf present
    std := stdFn present
    missing := (cs.filter Option.isNone).length }

/-- Summary of one object column, from `value_counts()` over present values:
counts descending, ties resolved by first appearance. -/
def catSummaryOf (cs : List (Option String)) : CatSummary :=
  let present := cs.filterMap id
  let top := (keepFirstAux [] present).foldl
    (fun acc v =>
      match acc with
      | none => some v
      | some b => if countOcc present v > countOcc present b then some v else acc)
    none
  { unique_values := (keepFirstAux [] present).length
    most_common := top
    most_common_count := match top with | some v => countOcc present v | none => 0
    missing := (cs.filter Option.isNone).length }

def idExcludeKeywords : List String := ["nim", "id", "kode"]

/-- Models `DataProcessor.analyze_data`.  Note the returned dictionary
carries exactly the keys row_count, column_count, columns, statistics,
summary and detected_type: the optional keys `departments` and
`total_students` keep their absent (`none`) defaults. -/
def analyze_data (stdFn : List ℚ → ℚ) (df : PTable) : DataSummary :=
  let detected := detect_data_type (df.map (·.1))
  let numCols0 := df.filter fun c => match c.2 with | .num _ => true | .text _ => false
  let numCols :=
    if detected = "student" then
      numCols0.filter fun c => !(idExcludeKeywords.any fun k => containsSub (strLower c.1) k)
    else numCols0
  { row_count := nRows df
    column_count := df.length
    columns := df.map (·.1)
    statistics := numCols.filterMap fun c =>
      match c.2 with
      | .num cs => some (c.1, numStatsOf stdFn cs)
      | .text _ => none
    summary := df.filterMap fun c =>
      match c.2 with
      | .text cs => some (c.1, catSummaryOf cs)
      | .num _ => none
    detected_type := detected }

def qfloor (q : ℚ) : ℤ := Int.fdiv q.num q.den

/-- Round-half-even to the nearest integer. -/
def roundHE (q : ℚ) : ℤ :=
  let f := qfloor q
  let r := qsub q (intQ f)
  if r < Rat.divInt 1 2 then f
  else if Rat.divInt 1 2 < r then f + 1
  else if f % 2 = 0 then f else f + 1

def pad2 (n : Nat) : String := if n < 10 then "0" ++ toString n else toString n

/-- Python's `f"{x:.2f}"` as exact two-decimal rendering of the rational
value, rounding half to even (artifacts of binary-float representation are
not modelled). -/
def fmt2 (q : ℚ) : String :=
  let n := roundHE (qmul q (intQ 100))
  (if n < 0 then "-" else "") ++ toString (n.natAbs / 100) ++ "." ++ pad2 (n.natAbs % 100)

def statLines (p : String × NumStats) : List String :=
  ["\n" ++ p.1 ++ ":",
   "  - Mean: " ++ fmt2 p.2.mean,
   "  - Median: " ++ fmt2 p.2.median,
   "  - Range: " ++ fmt2 p.2.min ++ " - " ++ fmt2 p.2.max,
   "  - Std Dev: " ++ fmt2 p.2.std]

def catLines (p : String × CatSummary) : List String :=
  ["\n" ++ p.1 ++ ":",
   "  - Unique values: " ++ toString p.2.unique_values]
  ++ (if (p.2.most_common.getD "") ≠ "" then
        ["  - Most common: " ++ p.2.most_common.getD "" ++ " ("
          ++ toString p.2.most_common_count ++ " times)"]
      else [])

/-- Models `DataProcessor.get_data_summary_for_ai`, the deterministic
textual digest of an analysis.  Python's truthiness tests become: a
statistics/summary dict is falsy iff empty, `most_common` is falsy iff it
is `None` or the empty string. -/
def get_data_summary_for_ai (a : DataSummary) : String :=
  joinLines
    (["Data Overview:",
      "- Total records: " ++ toString a.row_count,
      "- Total columns: " ++ toString a.column_count,
      "- Detected type: " ++ a.detected_type,
      "",
      "Columns:"]
     ++ a.columns.map (fun c => "- " ++ c)
     ++ (if a.statistics.isEmpty then []
         else "\nNumerical Statistics:" :: (a.statistics.map statLines).flatten)
     ++ (if a.summary.isEmpty then []
         else "\nCategorical Data:" :: (a.summary.map catLines).flatten))

/-! ## ReportGenerator: responses, usage, retry, prompt, fallback -/

/-- The `usage_metadata` attribute of a GenAI response; each token count
attribute is itself optional in the SDK. -/
structure UsageMeta where
  prompt_token_count : Option ℤ
  candidates_token_count : Option ℤ
  total_token_count : Option ℤ
  deriving DecidableEq

/-- A successful `generate_content` response: narrative text plus optional
usage metadata. -/
structure GenResponse where
  text : String
  usage_metadata : Option UsageMeta
  deriving DecidableEq

/-- The usage dictionary `ReportGenerator` returns. -/
structure UsageInfo where
  prompt_tokens : Option ℤ
  output_tokens : Option ℤ
  total_tokens : Option ℤ
  deriving DecidableEq

/-- Models `ReportGenerator._extract_usage_info`. -/
def extract_usage_info (r : GenResponse) : UsageInfo :=
  match r.usage_metadata with
  | none => ⟨none, none, none⟩
  | some m => ⟨m.prompt_token_count, m.candidates_token_count, m.total_token_count⟩

def optIntStr : Option ℤ → String
  | none => "None"
  | some n => toString n

/-- Models `ReportGenerator._format_usage_section`. -/
def format_usage_section (u : UsageInfo) : String :=
  joinLines ("### 📊 Token Usage" ::
    (match u.prompt_tokens with
     | none => ["_Token usage data tidak tersedia._"]
     | some p =>
       ["- Prompt tokens: **" ++ toString p ++ "**",
        "- Output tokens: **" ++ optIntStr u.output_tokens ++ "**",
        "- Total tokens: **" ++ optIntStr u.total_tokens ++ "**"]))

instance : DecidableEq (Except String GenResponse) := fun a b =>
  match a, b with
  | .error x, .error y =>
    if h : x = y then .isTrue (by rw [h]) else .isFalse (by simp [h])
  | .error _, .ok _ => .isFalse (by simp)
  | .ok _, .error _ => .isFalse (by simp)
  | .ok x, .ok y =>
    if h : x = y then .isTrue (by rw [h]) else .isFalse (by simp [h])

/-- Outcome trace of the retry loop: the final result, the sleeps performed
between attempts (in seconds) and the number of API calls made. -/
structure RetryTrace where
  result : Except String GenResponse
  sleeps : List Nat
  calls : Nat
  deriving DecidableEq

/-- Error message raised on exhaustion; the original exception text appended
by the f-string is not modelled. -/
def retryErrMsg (maxRetries : Nat) : String :=
  "API call failed after " ++ toString maxRetries ++ " attempts"

/-- Loop body of `ReportGenerator._call_model_with_retry`: `outcome i` is
what the i-th `generate_content` call does (`some r` = returns `r`,
`none` = raises).  `remaining = maxRetries - attempt` counts the loop
iterations left, so `remaining = 1` is the final attempt, which raises
instead of sleeping. -/
def retryGo (outcome : Nat → Option GenResponse) (maxRetries : Nat) :
    Nat → Nat → RetryTrace
  | _, 0 => ⟨.error "loop finished without an attempt", [], 0⟩
  | attempt, remaining + 1 =>
    match outcome attempt with
    | some r => ⟨.ok r, [], 1⟩
    | none =>
      if remaining = 0 then ⟨.error (retryErrMsg maxRetries), [], 1⟩
      else
        let rest := retryGo outcome maxRetries (attempt + 1) remaining
        ⟨rest.result, 2 ^ attempt :: rest.sleeps, rest.calls + 1⟩

/-- Models `ReportGenerator._call_model_with_retry`. -/
def call_model_with_retry (outcome : Nat → Option GenResponse) (maxRetries : Nat) :
    RetryTrace :=
  retryGo outcome maxRetries 0 maxRetries

/-- Everything `ReportGenerator._create_prompt` places before the data
digest: the fixed preamble, the report-kind-specific outline and the style
block, ending in the `DATA YANG HARUS DIANALISIS:` header.  The Indonesian
instruction blocks are the source's literals. -/
def promptPrefix (report_type : String) : String :=
  let base :=
    "Anda adalah analis institusi universitas yang sangat berpengalaman. Tugas Anda adalah menyusun laporan analitis yang terstruktur, informatif, dan formal berdasarkan data yang diberikan di bawah ini. Gunakan hanya informasi yang tersedia dalam data — jangan membuat asumsi atau menambahkan data eksternal.\n\n"
  let spec :=
    if report_type = "student_performance" then
      "Tulis laporan performa mahasiswa dengan format berikut:\n1. RINGKASAN EKSEKUTIF — ringkas temuan utama (jumlah mahasiswa, tren nilai, status aktif, dsb.)\n2. ANALISIS PERFORMA — bahas analisis nilai (rata-rata, tren, variasi), IPK, dan kategori status\n3. KESIMPULAN & REKOMENDASI — simpulkan temuan dan berikan saran kebijakan atau tindakan\n\n"
    else if report_type = "financial_analysis" then
      "Tulis laporan keuangan institusi dengan format berikut:\n1. TINJAUAN KEUANGAN — gambaran umum kondisi keuangan\n2. ANALISIS DETAIL — bahas pendapatan, pengeluaran, rasio penting, serta tren utama\n3. KESIMPULAN & SARAN — simpulkan dan berikan rekomendasi strategis\n\n"
    else
      "Tulis laporan analitis umum dengan format berikut:\n1. Ringkasan Umum\n2. Analisis Data\n3. Kesimpulan & Rekomendasi\n\n"
  let style :=
    "Gaya penulisan:\n- Gunakan Bahasa Indonesia yang formal dan jelas.\n- Jangan hanya menyalin angka; jelaskan makna statistiknya (misalnya: tren IPK, jurusan dominan, variasi nilai).\n- Gunakan paragraf terstruktur, bukan bullet list.\n- Jika relevan, hubungkan temuan numerik dan kategorikal untuk memberikan insight.\n\n"
  base ++ spec ++ style ++ "DATA YANG HARUS DIANALISIS:\n"

/-- Closing instruction line of the prompt. -/
def promptSuffix : String :=
  "\n\nTulislah laporan naratif dalam Bahasa Indonesia sesuai struktur di atas:"

/-- Models `ReportGenerator._create_prompt`: instructions, the digest of the
analysis (`get_data_summary_for_ai`), and the closing instruction. -/
def create_prompt (a : DataSummary) (report_type : String) : String :=
  promptPrefix report_type ++ get_data_summary_for_ai a ++ promptSuffix

/-- Models `ReportGenerator._create_fallback_report`. -/
def create_fallback_report (a : DataSummary) : String :=
  "# Laporan Universitas (Fallback)\n\nLaporan ini dihasilkan berdasarkan data berikut:\n\n"
    ++ get_data_summary_for_ai a
    ++ "\n\n*Catatan: AI gagal menghasilkan teks, sehingga laporan fallback digunakan.*"

/-- Models `ReportGenerator.generate_report`: on a successful call the
narrative is the model text with a separator and the Markdown usage
section appended; on any exception (in particular retry exhaustion) the
fallback report with an all-`none` usage dictionary is returned.
`env prompt i` is what the i-th `generate_content` call for `prompt` does. -/
def generate_report (env : String → Nat → Option GenResponse) (a : DataSummary)
    (report_type : String) : String × UsageInfo :=
  match (call_model_with_retry (env (create_prompt a report_type)) 3).result with
  | .ok resp =>
    let usage := extract_usage_info resp
    (resp.text ++ "\n\n---\n" ++ format_usage_section usage, usage)
  | .error _ => (create_fallback_report a, ⟨none, none, none⟩)

/-! ## ReportGenerator.validate_report -/

def short_issue : String := "Teks laporan terlalu pendek (<200 karakter)"

def hedge_issue : String := "Laporan menyiratkan ketidakpastian atau kekurangan data"

def dept_issue (m : String) : String :=
  "Departemen '" ++ m ++ "' disebut dalam teks, tapi tidak ada di data"

def mismatch_issue (v : ℕ) (t : ℤ) : String :=
  "Isi narasi menyebut total mahasiswa = " ++ toString v
    ++ ", tetapi data menyebut " ++ toString t

/-- Remainder of the pattern `mahasiswa\s*[=:]?\s*(\d+)` after the literal:
optional whitespace, an optional `=` or `:`, optional whitespace, then at
least one digit, whose greedy run is the captured group. -/
def mahasiswaTail (cs : List Char) : Option ℕ :=
  let cs1 := cs.dropWhile isPySpace
  let cs2 :=
    match cs1 with
    | c :: rest => if c = '=' || c = ':' then rest else cs1
    | [] => cs1
  let ds := (cs2.dropWhile isPySpace).takeWhile isDigitChar
  if ds.isEmpty then none else some (digitsToNat ds)

/-- Models `re.search(r"mahasiswa\s*[=:]?\s*(\d+)", text)`: the engine tries
each position left to right and returns `int(group(1))` of the first full
match. -/
def mahasiswaSearch : List Char → Option ℕ
  | [] => none
  | c :: rest =>
    if prefixAt ("mahasiswa".data) (c :: rest) then
      match mahasiswaTail ((c :: rest).drop 9) with
      | some v => some v
      | none => mahasiswaSearch rest
    else mahasiswaSearch rest

/-- Models `re.findall(r"Departemen\s+([A-Za-z]+)", text)`: the captured
group of every non-overlapping match, scanning left to right and resuming
after each match.  `fuel` only bounds the scan; it is called with the text
length, which every step consumes at least one character of. -/
def deptFindAllGo : Nat → List Char → List String
  | 0, _ => []
  | _ + 1, [] => []
  | fuel + 1, c :: rest =>
    if prefixAt ("Departemen".data) (c :: rest) then
      let after := (c :: rest).drop 10
      if (after.takeWhile isPySpace).isEmpty then deptFindAllGo fuel rest
      else
        let after2 := after.dropWhile isPySpace
        let letters := after2.takeWhile isAsciiLetter
        if letters.isEmpty then deptFindAllGo fuel rest
        else String.mk letters :: deptFindAllGo fuel (after2.drop letters.length)
    else deptFindAllGo fuel rest

def deptFindAll (text : String) : List String := deptFindAllGo text.data.length text.data

/-- Models `re.findall(r"\d+(?:\.\d+)?", text)` as a count of the matches:
maximal digit runs with an optional fraction, non-overlapping. -/
def numTokensGo : Nat → List Char → Nat
  | 0, _ => 0
  | _ + 1, [] => 0
  | fuel + 1, c :: rest =>
    if isDigitChar c then
      let after := (c :: rest).drop ((c :: rest).takeWhile isDigitChar).length
      let after2 :=
        match after with
        | '.' :: r2 =>
          if (r2.takeWhile isDigitChar).isEmpty then after
          else r2.drop (r2.takeWhile isDigitChar).length
        | _ => after
      1 + numTokensGo fuel after2
    else numTokensGo fuel rest

def numTokensCount (text : String) : Nat := numTokensGo text.data.length text.data

/-- Result dictionary of `validate_report`. -/
structure ValidationResult where
  is_valid : Bool
  issues : List String
  num_extracted : Nat
  deriving DecidableEq

/-- Length check (issue 1): narrative shorter than 200 characters. -/
def length_issues (text : String) : List String :=
  if text.length < 200 then [short_issue] else []

/-- Hedging-language check (issue 2) on the lower-cased text. -/
def hedge_issues (text : String) : List String :=
  if containsSub (strLower text) "tidak dapat" || containsSub (strLower text) "data terbatas"
  then [hedge_issue] else []

/-- Inner loop of the department check: one issue for every `Departemen X`
mention whose name is not among the valid departments. -/
def dept_offender_issues (text : String) (depts : List String) : List String :=
  (deptFindAll text).filterMap fun m =>
    if depts.contains m then none else some (dept_issue m)

/-- Department check (issue 3): the outer loop runs once per entry of
`data_summary.get("departments", {})` and its body re-scans the whole text,
appending one issue per offending mention on every iteration. -/
def dept_issues (text : String) (ds : DataSummary) : List String :=
  let depts := ds.departments.getD []
  depts.flatMap fun _ => dept_offender_issues text depts

/-- Numeric-claim check (issue 4): when `total_students` is present and the
`mahasiswa` pattern matches, flag if the asserted value deviates from the
total by more than `max(1, 0.05 * total)` (floats as exact rationals,
`0.05 = 1/20`). -/
def claim_issues (text : String) (ds : DataSummary) : List String :=
  match ds.total_students with
  | none => []
  | some total =>
    match mahasiswaSearch text.data with
    | none => []
    | some v =>
      if |qsub (natQ v) (intQ total)| > max (intQ 1) (qmul (Rat.divInt 1 20) (intQ total))
      then [mismatch_issue v total] else []

/-- Models `ReportGenerator.validate_report`. -/
def validate_report (text : String) (ds : DataSummary) : ValidationResult :=
  let issues :=
    length_issues text ++ hedge_issues text ++ dept_issues text ds ++ claim_issues text ds
  { is_valid := issues.isEmpty
    issues := issues
    num_extracted := numTokensCount text }

/-! ## DataAggregator.ingest -/

/-- A raw ingested table: column names and rows of optional string cells. -/
structure IngTable where
  cols : List String
  rows : List (List (Option String))
  deriving DecidableEq

/-- Models `df[name] = value` with a scalar: overwrite the column if it
exists, else append it. -/
def IngTable.setCol (t : IngTable) (name : String) (v : Option String) : IngTable :=
  match t.cols.indexOf? name with
  | some i => ⟨t.cols, t.rows.map fun r => r.set i v⟩
  | none => ⟨t.cols ++ [name], t.rows.map fun r => r ++ [v]⟩

/-- Provenance stamping: `df["source_type"] = kind; df["source_file"] = fname`. -/
def stamp (t : IngTable) (kind fname : String) : IngTable :=
  (t.setCol "source_type" (some kind)).setCol "source_file" (some fname)

def unionCols (acc : List String) (cs : List String) : List String :=
  acc ++ cs.filter fun c => !acc.contains c

def lookupCell (cols : List String) (r : List (Option String)) (c : String) : Option String :=
  match cols.indexOf? c with
  | some i => r.getD i none
  | none => none

/-- Models `pd.concat(frames, ignore_index=True, sort=False)`: the union of
the columns in first-appearance order; a cell of a column absent from a
frame is missing. -/
def concatTables (ts : List IngTable) : IngTable :=
  let cols := ts.foldl (fun acc t => unionCols acc t.cols) []
  ⟨cols, ts.flatMap fun t => t.rows.map fun r => cols.map (lookupCell t.cols r)⟩

/-- What the environment does for one source locator of `ingest`.  The
constructor records which dispatch branch the locator's address string
selects (an `http(s)` address containing `/data/` is a listing, any other
`http(s)` address a single remote CSV, anything else a local file) together
with the fetch/parse outcome; `none` means the fetch or `pd.read_csv`
raised.  For a listing, `_get_csv_links_from_api` already catches its own
errors and returns a (possibly empty) link list, each with its download
outcome. -/
inductive SrcOutcome
  | apiListing (links : List (String × Option IngTable))
  | apiFile (fname : String) (res : Option IngTable)
  | localFile (fname : String) (res : Option IngTable)

/-- Frames appended while handling the links of one listing source: a failed
download is skipped, an empty table is skipped, any other table is stamped
and kept. -/
def linkFrames (links : List (String × Option IngTable)) : List IngTable :=
  links.filterMap fun l =>
    match l.2 with
    | none => none
    | some t => if t.rows.isEmpty then none else some (stamp t "api" l.1)

/-- Frames appended while handling one source.  A single remote CSV is
appended without an emptiness check (the code has none on that path); a
local CSV is skipped when empty. -/
def sourceFrames : SrcOutcome → List IngTable
  | .apiListing links => linkFrames links
  | .apiFile fname res =>
    match res with
    | none => []
    | some t => [stamp t "api" fname]
  | .localFile fname res =>
    match res with
    | none => []
    | some t => if t.rows.isEmpty then [] else [stamp t "local" fname]

/-- The `frames` list accumulated over all sources. -/
def ingestFrames (sources : List SrcOutcome) : List IngTable :=
  sources.flatMap sourceFrames

def noDataMsg : String := "❌ No valid data ingested from provided sources."

/-- Models `DataAggregator.ingest`: every per-source failure is caught and
skipped; only an empty frame list is fatal.  Cache writes are I/O side
effects performed after a frame is appended and cannot change the result,
so they are not modelled. -/
def ingest (sources : List SrcOutcome) : Except String IngTable :=
  let frames := ingestFrames sources
  if frames.isEmpty then .error noDataMsg
  else .ok (concatTables frames)

/-! ## Helper lemmas -/

theorem data_append (a b : String) : (a ++ b).data = a.data ++ b.data := rfl

/-! ## Claim C8: _detect_data_type keyword families -/

/-- Claim C8: `_detect_data_type` lower-cases the column names, joins them
into one search string, and returns "mixed" exactly when at least two of
the three keyword families match that string, the single matching family's
name when exactly one matches, and "unknown" when none does. -/
theorem detect_data_type_cases (cols : List String) :
    (detect_data_type cols = "mixed" ↔
      2 ≤ ((if is_student_match cols then 1 else 0) : Nat)
            + (if is_finance_match cols then 1 else 0)
            + (if is_akreditasi_match cols then 1 else 0))
    ∧ (is_student_match cols = true → is_finance_match cols = false →
        is_akreditasi_match cols = false → detect_data_type cols = "student")
    ∧ (is_student_match cols = false → is_finance_match cols = true →
        is_akreditasi_match cols = false → detect_data_type cols = "finance")
    ∧ (is_student_match cols = false → is_finance_match cols = false →
        is_akreditasi_match cols = true → detect_data_type cols = "akreditasi")
    ∧ (is_student_match cols = false → is_finance_match cols = false →
        is_akreditasi_match cols = false → detect_data_type cols = "unknown") := by
  cases hs : is_student_match cols <;> cases hf : is_finance_match cols <;>
    cases hk : is_akreditasi_match cols <;>
      simp [detect_data_type, hs, hf, hk]

/-- Witness for C8: a table with a student and a finance keyword is mixed,
and one with only a student keyword is classified student. -/
theorem detect_data_type_cases_witness :
    detect_data_type ["Nama", "Biaya"] = "mixed"
    ∧ detect_data_type ["Nama"] = "student" := by
  constructor
  · exact (detect_data_type_cases ["Nama", "Biaya"]).1.mpr (by decide)
  · exact (detect_data_type_cases ["Nama"]).2.1 (by decide) (by decide) (by decide)

/-! ## Claim C3: retry attempts and backoff sleeps -/

/-- Counterexample for claim C3: when every attempt fails the retry loop
sleeps 1 then 2 time units — the claimed delay sequence 1, 2, 4 never
occurs with 3 attempts. -/
theorem retry_sleeps_counterexample :
    (call_model_with_retry (fun _ => none) 3).sleeps = [1, 2]
    ∧ ([1, 2] : List Nat) ≠ [1, 2, 4] :=
  ⟨rfl, by decide⟩

/-- Claim C3 (amended): at most 3 API calls are made; between consecutive
attempts the loop sleeps 2^attempt time units (so 1 then 2 when all three
attempts fail); there is no sleep after the final attempt, which instead
surfaces the accumulated failure. -/
theorem retry_at_most_three (outcome : Nat → Option GenResponse) :
    (call_model_with_retry outcome 3).calls ≤ 3
    ∧ (call_model_with_retry outcome 3).sleeps
        = (List.range ((call_model_with_retry outcome 3).calls - 1)).map (2 ^ ·)
    ∧ ((∀ i, i < 3 → outcome i = none) →
        (call_model_with_retry outcome 3).result = .error (retryErrMsg 3)
        ∧ (call_model_with_retry outcome 3).sleeps = [1, 2]
        ∧ (call_model_with_retry outcome 3).calls = 3) := by
  cases h0 : outcome 0 <;> cases h1 : outcome 1 <;> cases h2 : outcome 2 <;>
    refine ⟨?_, ?_, fun hall => ?_⟩ <;>
      first
        | exact Option.noConfusion (h0.symm.trans (hall 0 (by omega)))
        | exact Option.noConfusion (h1.symm.trans (hall 1 (by omega)))
        | exact Option.noConfusion (h2.symm.trans (hall 2 (by omega)))
        | simp [call_model_with_retry, retryGo, h0, h1, h2, List.range_succ]

/-- Witness for C3 (amended) at the all-failing outcome. -/
theorem retry_at_most_three_witness :
    (call_model_with_retry (fun _ => none) 3).result = .error (retryErrMsg 3)
    ∧ (call_model_with_retry (fun _ => none) 3).sleeps = [1, 2]
    ∧ (call_model_with_retry (fun _ => none) 3).calls = 3 :=
  (retry_at_most_three (fun _ => none)).2.2 (fun _ _ => rfl)

/-! ## Claim C5: usage counters all-null-together -/

def respPartial : GenResponse := ⟨"ok", some ⟨some 10, none, some 10⟩⟩

/-- Counterexample for claim C5: a response whose usage metadata is present
but lacks candidates_token_count yields a partially-null usage record —
neither all counters null nor all non-null. -/
theorem extract_usage_partial_counterexample :
    extract_usage_info respPartial = ⟨some 10, none, some 10⟩
    ∧ ¬((extract_usage_info respPartial).prompt_tokens = none
        ∧ (extract_usage_info respPartial).output_tokens = none
        ∧ (extract_usage_info respPartial).total_tokens = none)
    ∧ ¬((extract_usage_info respPartial).prompt_tokens ≠ none
        ∧ (extract_usage_info respPartial).output_tokens ≠ none
        ∧ (extract_usage_info respPartial).total_tokens ≠ none) :=
  ⟨rfl, by decide, by decide⟩

/-- Claim C5 (amended): when usage metadata is absent, all three counters
are null; when it is present, each counter independently copies its
attribute (null when that attribute is absent), so mixed records are
possible. -/
theorem extract_usage_cases (r : GenResponse) :
    (r.usage_metadata = none → extract_usage_info r = ⟨none, none, none⟩)
    ∧ (∀ m, r.usage_metadata = some m →
        extract_usage_info r
          = ⟨m.prompt_token_count, m.candidates_token_count, m.total_token_count⟩) := by
  constructor
  · intro h; simp [extract_usage_info, h]
  · intro m h; simp [extract_usage_info, h]

/-- Witness for C5 (amended) at concrete responses. -/
theorem extract_usage_cases_witness :
    extract_usage_info ⟨"x", none⟩ = ⟨none, none, none⟩
    ∧ extract_usage_info ⟨"x", some ⟨some 1, some 2, some 3⟩⟩ = ⟨some 1, some 2, some 3⟩ :=
  ⟨(extract_usage_cases ⟨"x", none⟩).1 rfl,
   (extract_usage_cases ⟨"x", some ⟨some 1, some 2, some 3⟩⟩).2 ⟨some 1, some 2, some 3⟩ rfl⟩

/-! ## Claim C4: ingest fails only on zero parsed tables -/

/-- Claim C4: ingest raises the fatal no-data error iff zero tables were
collected across all locators, and succeeds with the concatenation of the
collected tables whenever at least one was parsed and kept. -/
theorem ingest_no_data_iff (sources : List SrcOutcome) :
    (ingest sources = .error noDataMsg ↔ ingestFrames sources = [])
    ∧ (ingestFrames sources ≠ [] →
        ingest sources = .ok (concatTables (ingestFrames sources))) := by
  by_cases hf : ingestFrames sources = [] <;>
    simp [ingest, hf]

def sampleIngTable : IngTable := ⟨["x"], [[some "1"]]⟩

/-- Witness for C4: one readable non-empty local CSV among failing sources
makes ingest succeed. -/
theorem ingest_no_data_iff_witness :
    ingest [SrcOutcome.localFile "bad.csv" none,
            SrcOutcome.localFile "a.csv" (some sampleIngTable)]
      = .ok (concatTables (ingestFrames
          [SrcOutcome.localFile "bad.csv" none,
           SrcOutcome.localFile "a.csv" (some sampleIngTable)])) :=
  (ingest_no_data_iff _).2 (by decide)

/-! ## Cleaner lemmas shared by the clean_data claims -/

/-- The per-column transformation clean_data applies after the row and
column drops. -/
def cleanColumn (c : PCol) : PCol := modeImputeCol (imputeCol (coerceCol c))

theorem any_isNone_map_some (l : List String) :
    (l.map some).any Option.isNone = false := by
  induction l with
  | nil => rfl
  | cons a l ih => simp [ih]

theorem modeImputeCells_map_some (l : List String) :
    modeImputeCells (l.map some) = l.map some := by
  unfold modeImputeCells
  simp [any_isNone_map_some]

theorem cleanColumn_text (cells : List (Option String)) :
    cleanColumn (.text cells)
      = match (cells.map substOne).mapM parseNumeric with
        | some qs => .num (meanImputeCells qs)
        | none => .text ((cells.map substOne).map some) := by
  simp only [cleanColumn, coerceCol]
  cases h : (cells.map substOne).mapM parseNumeric with
  | some qs => rfl
  | none =>
    show PCol.text (modeImputeCells ((cells.map substOne).map some))
        = PCol.text ((cells.map substOne).map some)
    rw [modeImputeCells_map_some]

theorem clean_data_eq_map (df : PTable) :
    clean_data df = (dropAllMissingCols (dropDuplicates df)).map
      (fun c => (c.1, cleanColumn c.2)) := by
  unfold clean_data cleanColumn
  simp only [List.map_map]
  rfl

theorem cleanColumn_eq_impute (c : PCol) : cleanColumn c = imputeCol (coerceCol c) := by
  cases c with
  | num cs => rfl
  | text cs =>
    simp only [cleanColumn, coerceCol]
    cases h : (cs.map substOne).mapM parseNumeric with
    | some qs => rfl
    | none =>
      show PCol.text (modeImputeCells ((cs.map substOne).map some))
          = PCol.text ((cs.map substOne).map some)
      rw [modeImputeCells_map_some]

/-! ## Claim C1: all-or-nothing numeric coercion of text columns -/

def c1_input : PTable := [("c", PCol.text [some "1,5", some "x"])]

/-- Counterexample for claim C1: a text column with one unparsable value is
not left value-for-value unchanged — the failed coercion keeps the
comma-to-period substituted strings ("1,5" has become "1.5"). -/
theorem clean_substitution_retained_counterexample :
    clean_data c1_input = [("c", PCol.text [some "1.5", some "x"])]
    ∧ clean_data c1_input ≠ c1_input :=
  ⟨by decide, by decide⟩

/-- Claim C1 (amended): after duplicate-row and empty-column removal, every
text column is stringified with commas replaced by periods (missing cells
stringify to "nan"); if every resulting entry parses numerically the
cleaned table holds the parsed numeric column (whose missing entries are
then mean-imputed), otherwise the cleaned table holds the substituted
strings as text — the substitution is retained, not reverted to the
original values. -/
theorem clean_text_column_all_or_nothing (df : PTable) (n : String)
    (cells : List (Option String))
    (h : (n, PCol.text cells) ∈ dropAllMissingCols (dropDuplicates df)) :
    (∀ qs, (cells.map substOne).mapM parseNumeric = some qs →
        (n, PCol.num (meanImputeCells qs)) ∈ clean_data df)
    ∧ ((cells.map substOne).mapM parseNumeric = none →
        (n, PCol.text ((cells.map substOne).map some)) ∈ clean_data df) := by
  rw [clean_data_eq_map]
  constructor
  · intro qs hqs
    have hm := List.mem_map_of_mem (fun c => (c.1, cleanColumn c.2)) h
    simp only [cleanColumn_text, hqs] at hm
    exact hm
  · intro hfail
    have hm := List.mem_map_of_mem (fun c => (c.1, cleanColumn c.2)) h
    simp only [cleanColumn_text, hfail] at hm
    exact hm

def c1TableW : PTable :=
  [("g", PCol.text [some "3,5", some "4,0", some "2,1"]),
   ("t", PCol.text [some "a", some "b", some "1,0"])]

/-- Witness for C1 (amended): the decimal-comma column parses wholesale into
7/2, 4, 21/10 while its sibling with non-numeric values stays text. -/
theorem clean_text_column_all_or_nothing_witness :
    ("g", PCol.num (meanImputeCells
        [some (Rat.divInt 7 2), some (Rat.divInt 4 1), some (Rat.divInt 21 10)]))
      ∈ clean_data c1TableW
    ∧ ("t", PCol.text (([some "a", some "b", some "1,0"].map substOne).map some))
      ∈ clean_data c1TableW :=
  ⟨(clean_text_column_all_or_nothing c1TableW "g"
      [some "3,5", some "4,0", some "2,1"] (by decide)).1 _ (by decide),
   (clean_text_column_all_or_nothing c1TableW "t"
      [some "a", some "b", some "1,0"] (by decide)).2 (by decide)⟩

/-! ## Claim C6: imputation of missing text cells -/

def c6_input : PTable :=
  [("c", PCol.text [some "a", none, some "a", some "b"]),
   ("d", PCol.text [some "p", some "q", some "r", some "s"])]

/-- Counterexample for claim C6: the missing cell of column "c" ends up as
the literal string "nan", not the column's mode "a" (nor the empty
string). -/
theorem clean_mode_imputation_counterexample :
    clean_data c6_input
      = [("c", PCol.text [some "a", some "nan", some "a", some "b"]),
         ("d", PCol.text [some "p", some "q", some "r", some "s"])]
    ∧ modeOf ["a", "a", "b"] = some "a"
    ∧ (some "nan" : Option String) ≠ some "a"
    ∧ (some "nan" : Option String) ≠ some "" :=
  ⟨by decide, by decide, by decide, by decide⟩

/-- Claim C6 (amended): the coercion step stringifies missing text cells to
"nan", so the mode/empty-string imputation step never modifies the table
(clean_data equals the pipeline without it); after cleaning no text column
contains a missing value, and an originally-missing cell of a text column
that failed numeric parsing holds the literal string "nan". -/
theorem clean_missing_text_becomes_nan (df : PTable) :
    (clean_data df = (dropAllMissingCols (dropDuplicates df)).map
        (fun c => (c.1, imputeCol (coerceCol c.2))))
    ∧ (∀ n cells, (n, PCol.text cells) ∈ clean_data df → ∀ c ∈ cells, c.isSome)
    ∧ (∀ (n : String) (cells : List (Option String)) (i : Nat),
        (n, PCol.text cells) ∈ dropAllMissingCols (dropDuplicates df) →
        (cells.map substOne).mapM parseNumeric = none →
        cells[i]? = some none →
        (n, PCol.text ((cells.map substOne).map some)) ∈ clean_data df
        ∧ ((cells.map substOne).map some)[i]? = some (some "nan")) := by
  refine ⟨?_, ?_, ?_⟩
  · rw [clean_data_eq_map]
    simp only [cleanColumn_eq_impute]
  · intro n cells hmem c hc
    rw [clean_data_eq_map] at hmem
    rcases List.mem_map.mp hmem with ⟨a, _, ha⟩
    have hcol : cleanColumn a.2 = PCol.text cells := congrArg Prod.snd ha
    cases h2 : a.2 with
    | num cs => rw [h2] at hcol; exact PCol.noConfusion hcol
    | text cs =>
      rw [h2, cleanColumn_text] at hcol
      cases hp : (cs.map substOne).mapM parseNumeric with
      | some qs => rw [hp] at hcol; exact PCol.noConfusion hcol
      | none =>
        rw [hp] at hcol
        have : (cs.map substOne).map some = cells := PCol.text.inj hcol
        rw [← this] at hc
        rcases List.mem_map.mp hc with ⟨s, _, hs⟩
        rw [← hs]
        rfl
  · intro n cells i hmem hfail hgot
    constructor
    · rw [clean_data_eq_map]
      have hm := List.mem_map_of_mem (fun c => (c.1, cleanColumn c.2)) hmem
      simp only [cleanColumn_text, hfail] at hm
      exact hm
    · rw [List.getElem?_map, List.getElem?_map, hgot]
      rfl

/-- Witness for C6 (amended): in `c6_input` the originally-missing cell at
index 1 of column "c" holds the string "nan" after cleaning. -/
theorem clean_missing_text_becomes_nan_witness :
    ("c", PCol.text (([some "a", none, some "a", some "b"].map substOne).map some))
      ∈ clean_data c6_input
    ∧ (([some "a", none, some "a", some "b"].map substOne).map some)[1]?
      = some (some "nan") :=
  (clean_missing_text_becomes_nan c6_input).2.2 "c"
    [some "a", none, some "a", some "b"] 1 (by decide) (by decide) (by decide)

/-! ## Validator lemmas shared by the validation claims -/

theorem ne_of_head_ne (a b : String) (ca cb : Char) (ha : a.data.head? = some ca)
    (hb : b.data.head? = some cb) (hne : ca ≠ cb) : a ≠ b := by
  intro h
  subst h
  rw [ha] at hb
  exact hne (Option.some.inj hb)

theorem mismatch_issue_head (v : ℕ) (t : ℤ) :
    (mismatch_issue v t).data.head? = some 'I' := rfl

theorem dept_issue_head (m : String) : (dept_issue m).data.head? = some 'D' := rfl

theorem short_issue_head : short_issue.data.head? = some 'T' := by decide

theorem hedge_issue_head : hedge_issue.data.head? = some 'L' := by decide

theorem mem_length_issues (x : String) (text : String) (h : x ∈ length_issues text) :
    x = short_issue := by
  unfold length_issues at h
  by_cases hc : text.length < 200
  · rw [if_pos hc] at h; exact List.mem_singleton.mp h
  · rw [if_neg hc] at h; exact absurd h (List.not_mem_nil x)

theorem mem_hedge_issues (x : String) (text : String) (h : x ∈ hedge_issues text) :
    x = hedge_issue := by
  unfold hedge_issues at h
  by_cases hc :
      (containsSub (strLower text) "tidak dapat"
        || containsSub (strLower text) "data terbatas") = true
  · rw [if_pos hc] at h; exact List.mem_singleton.mp h
  · rw [if_neg hc] at h; exact absurd h (List.not_mem_nil x)

theorem mem_dept_issues (x : String) (text : String) (ds : DataSummary)
    (h : x ∈ dept_issues text ds) : ∃ m, x = dept_issue m := by
  unfold dept_issues dept_offender_issues at h
  rcases List.mem_flatMap.mp h with ⟨d, _, hin⟩
  rcases List.mem_filterMap.mp hin with ⟨m, _, hm⟩
  by_cases hc : (ds.departments.getD []).contains m = true
  · rw [if_pos hc] at hm; exact absurd hm (by simp)
  · rw [if_neg hc] at hm; exact ⟨m, (Option.some.inj hm).symm⟩

theorem mem_claim_issues (x : String) (text : String) (ds : DataSummary)
    (h : x ∈ claim_issues text ds) : ∃ v t, x = mismatch_issue v t := by
  revert h
  unfold claim_issues
  cases ds.total_students with
  | none => intro h; exact absurd h (List.not_mem_nil x)
  | some total =>
    cases mahasiswaSearch text.data with
    | none => intro h; exact absurd h (List.not_mem_nil x)
    | some v =>
      intro h
      have h' : x ∈ (if |qsub (natQ v) (intQ total)|
          > max (intQ 1) (qmul (Rat.divInt 1 20) (intQ total))
          then [mismatch_issue v total] else []) := h
      by_cases hc :
          |qsub (natQ v) (intQ total)| > max (intQ 1) (qmul (Rat.divInt 1 20) (intQ total))
      · rw [if_pos hc] at h'; exact ⟨v, total, List.mem_singleton.mp h'⟩
      · rw [if_neg hc] at h'; exact absurd h' (List.not_mem_nil x)

theorem validate_report_issues (text : String) (ds : DataSummary) :
    (validate_report text ds).issues
      = length_issues text ++ hedge_issues text ++ dept_issues text ds
        ++ claim_issues text ds := rfl

/-! ## Claim C7: numeric-claim mismatch check -/

/-- Claim C7: when the analysis exposes a total-students value and the text
matches the `mahasiswa` number pattern with asserted value `v`, the
validator reports the numeric-mismatch issue naming both values exactly
when `v` deviates from the total by more than `max(1, 5%·total)`. -/
theorem validate_total_mismatch (text : String) (ds : DataSummary) (total : ℤ) (v : ℕ)
    (htot : ds.total_students = some total) (hv : mahasiswaSearch text.data = some v) :
    mismatch_issue v total ∈ (validate_report text ds).issues ↔
      |qsub (natQ v) (intQ total)| > max (intQ 1) (qmul (Rat.divInt 1 20) (intQ total)) := by
  rw [validate_report_issues]
  have hC : claim_issues text ds
      = if |qsub (natQ v) (intQ total)| > max (intQ 1) (qmul (Rat.divInt 1 20) (intQ total))
        then [mismatch_issue v total] else [] := by
    simp only [claim_issues, htot, hv]
  constructor
  · intro hmem
    rcases List.mem_append.mp hmem with h3 | h
    rcases List.mem_append.mp h3 with h2 | h
    rcases List.mem_append.mp h2 with h | h
    · exact absurd (mem_length_issues _ text h)
        (ne_of_head_ne _ _ 'I' 'T' (mismatch_issue_head v total) short_issue_head
          (by decide))
    · exact absurd (mem_hedge_issues _ text h)
        (ne_of_head_ne _ _ 'I' 'L' (mismatch_issue_head v total) hedge_issue_head
          (by decide))
    · rcases mem_dept_issues _ text ds h with ⟨m, hm⟩
      exact absurd hm
        (ne_of_head_ne _ _ 'I' 'D' (mismatch_issue_head v total) (dept_issue_head m)
          (by decide))
    · rw [hC] at h
      by_cases hc :
          |qsub (natQ v) (intQ total)| > max (intQ 1) (qmul (Rat.divInt 1 20) (intQ total))
      · exact hc
      · rw [if_neg hc] at h; exact absurd h (List.not_mem_nil _)
  · intro hgt
    refine List.mem_append.mpr (Or.inr ?_)
    rw [hC, if_pos hgt]
    exact List.mem_singleton.mpr rfl

def wDS : DataSummary := ⟨120, 1, ["mahasiswa"], [], [], "student", none, some 120⟩

/-- Witness for C7 at the spec's scenario: true total 120, asserted 200,
deviation 80 > max(1, 6). -/
theorem validate_total_mismatch_witness :
    mismatch_issue 200 120 ∈ (validate_report "Jumlah mahasiswa: 200 tercatat." wDS).issues :=
  (validate_total_mismatch "Jumlah mahasiswa: 200 tercatat." wDS 120 200 rfl
    (by decide)).mpr (by decide)

/-! ## Claim C10: department check is vacuous or multiplied -/

theorem flatMap_const {α β : Type} (l : List α) (c : List β) :
    (l.flatMap fun _ => c) = (List.replicate l.length c).flatten := by
  induction l with
  | nil => rfl
  | cons a l ih => simp [List.replicate_succ, ih]

/-- Claim C10: `analyze_data` never emits a departments mapping, validation
with an absent or empty departments mapping raises no unknown-department
issue no matter the text, and with k valid departments every offending
mention is reported k times (the whole offender list is replicated once per
department). -/
theorem dept_check_vacuous_or_repeated :
    (∀ (stdFn : List ℚ → ℚ) (df : PTable), (analyze_data stdFn df).departments = none)
    ∧ (∀ (text : String) (ds : DataSummary), ds.departments.getD [] = [] →
        dept_issues text ds = []
        ∧ ∀ m, dept_issue m ∉ (validate_report text ds).issues)
    ∧ (∀ (text : String) (ds : DataSummary) (depts : List String),
        ds.departments = some depts →
        dept_issues text ds
          = (List.replicate depts.length (dept_offender_issues text depts)).flatten) := by
  refine ⟨fun _ _ => rfl, fun text ds h => ⟨?_, ?_⟩, fun text ds depts h => ?_⟩
  · unfold dept_issues
    rw [h]
    rfl
  · intro m hm
    rw [validate_report_issues] at hm
    rcases List.mem_append.mp hm with h3 | hm
    rcases List.mem_append.mp h3 with h2 | hm
    rcases List.mem_append.mp h2 with hm | hm
    · exact absurd (mem_length_issues _ text hm)
        (ne_of_head_ne _ _ 'D' 'T' (dept_issue_head m) short_issue_head (by decide))
    · exact absurd (mem_hedge_issues _ text hm)
        (ne_of_head_ne _ _ 'D' 'L' (dept_issue_head m) hedge_issue_head (by decide))
    · unfold dept_issues at hm
      rw [h] at hm
      exact absurd hm (List.not_mem_nil _)
    · rcases mem_claim_issues _ text ds hm with ⟨v, t, hvt⟩
      exact absurd hvt
        (ne_of_head_ne _ _ 'D' 'I' (dept_issue_head m) (mismatch_issue_head v t)
          (by decide))
  · unfold dept_issues
    rw [h]
    exact flatMap_const depts (dept_offender_issues text depts)

def wDS10 : DataSummary := ⟨3, 1, ["x"], [], [], "unknown", some ["Aaa", "Bbb"], none⟩

/-- Witness for C10: with no departments mapping no department issue arises,
and with two valid departments the offender list is emitted twice. -/
theorem dept_check_vacuous_or_repeated_witness :
    dept_issue "Zzz" ∉ (validate_report "Departemen Zzz" wDS).issues
    ∧ dept_issues "Departemen Zzz dan Departemen Aaa" wDS10
      = (List.replicate (["Aaa", "Bbb"].length)
          (dept_offender_issues "Departemen Zzz dan Departemen Aaa" ["Aaa", "Bbb"])).flatten :=
  ⟨(dept_check_vacuous_or_repeated.2.1 "Departemen Zzz" wDS rfl).2 "Zzz",
   dept_check_vacuous_or_repeated.2.2 "Departemen Zzz dan Departemen Aaa" wDS10
     ["Aaa", "Bbb"] rfl⟩

/-! ## Claim C2: fallback on exhausted generation attempts -/

/-- Literal split of the fallback header around the fallback marker. -/
theorem fallback_header_split :
    ("# Laporan Universitas (Fallback)\n\nLaporan ini dihasilkan berdasarkan data berikut:\n\n").data
      = "# Laporan Universitas ".data ++ "(Fallback)".data
        ++ "\n\nLaporan ini dihasilkan berdasarkan data berikut:\n\n".data := by decide

/-- Claim C2: when every one of the three generation attempts fails,
generate_report does not propagate the failure: it returns the
deterministic fallback narrative built from the same `get_data_summary_for_ai`
digest the prompt embeds, with all usage counters null, and the text
carries the visible "(Fallback)" marker. -/
theorem generate_report_fallback (env : String → Nat → Option GenResponse)
    (a : DataSummary) (rt : String)
    (h : ∀ i, i < 3 → env (create_prompt a rt) i = none) :
    generate_report env a rt = (create_fallback_report a, ⟨none, none, none⟩)
    ∧ create_fallback_report a
      = "# Laporan Universitas (Fallback)\n\nLaporan ini dihasilkan berdasarkan data berikut:\n\n"
        ++ get_data_summary_for_ai a
        ++ "\n\n*Catatan: AI gagal menghasilkan teks, sehingga laporan fallback digunakan.*"
    ∧ (∃ l r, (create_fallback_report a).data = l ++ ("(Fallback)").data ++ r)
    ∧ (∃ l r, (create_prompt a rt).data = l ++ (get_data_summary_for_ai a).data ++ r) := by
  have h0 := h 0 (by omega)
  have h1 := h 1 (by omega)
  have h2 := h 2 (by omega)
  refine ⟨?_, rfl, ?_, ?_⟩
  · simp [generate_report, call_model_with_retry, retryGo, h0, h1, h2]
  · refine ⟨"# Laporan Universitas ".data,
      "\n\nLaporan ini dihasilkan berdasarkan data berikut:\n\n".data
        ++ (get_data_summary_for_ai a).data
        ++ "\n\n*Catatan: AI gagal menghasilkan teks, sehingga laporan fallback digunakan.*".data,
      ?_⟩
    show (("# Laporan Universitas (Fallback)\n\nLaporan ini dihasilkan berdasarkan data berikut:\n\n"
        ++ get_data_summary_for_ai a)
        ++ "\n\n*Catatan: AI gagal menghasilkan teks, sehingga laporan fallback digunakan.*").data = _
    rw [data_append, data_append, fallback_header_split]
    simp only [List.append_assoc]
  · exact ⟨(promptPrefix rt).data, promptSuffix.data, by
      show ((promptPrefix rt ++ get_data_summary_for_ai a) ++ promptSuffix).data = _
      rw [data_append, data_append]⟩

def emptyDS : DataSummary := ⟨0, 0, [], [], [], "unknown", none, none⟩

/-- Witness for C2: an environment that fails all attempts yields the
fallback pair. -/
theorem generate_report_fallback_witness :
    generate_report (fun _ _ => none) emptyDS "general"
      = (create_fallback_report emptyDS, ⟨none, none, none⟩) :=
  (generate_report_fallback (fun _ _ => none) emptyDS "general" (fun _ _ => rfl)).1

/-! ## Claim C9: successful reports carry an appended usage section -/

theorem joinLines_head_data (s : String) (l : List String) (hl : l ≠ []) :
    ∃ r, (joinLines (s :: l)).data = s.data ++ r := by
  cases l with
  | nil => exact absurd rfl hl
  | cons b bs =>
    refine ⟨'\n' :: (joinLines (b :: bs)).data, ?_⟩
    show ((s ++ "\n") ++ joinLines (b :: bs)).data = _
    rw [data_append, data_append]
    simp only [List.append_assoc]
    rfl

/-- Claim C9: when the API call succeeds, the returned narrative is not the
raw model text: it is the model text with the `---` separator and the
Markdown token-usage section appended, and that section starts with the
`### 📊 Token Usage` heading. -/
theorem generate_report_success (env : String → Nat → Option GenResponse)
    (a : DataSummary) (rt : String) (resp : GenResponse)
    (h : (call_model_with_retry (env (create_prompt a rt)) 3).result = .ok resp) :
    generate_report env a rt
      = (resp.text ++ "\n\n---\n" ++ format_usage_section (extract_usage_info resp),
         extract_usage_info resp)
    ∧ (generate_report env a rt).1 ≠ resp.text
    ∧ (∃ l, (generate_report env a rt).1.data
        = l ++ ("\n\n---\n" ++ format_usage_section (extract_usage_info resp)).data)
    ∧ (∃ r, (format_usage_section (extract_usage_info resp)).data
        = ("### 📊 Token Usage").data ++ r) := by
  have hgen : generate_report env a rt
      = (resp.text ++ "\n\n---\n" ++ format_usage_section (extract_usage_info resp),
         extract_usage_info resp) := by
    simp only [generate_report, h]
  refine ⟨hgen, ?_, ?_, ?_⟩
  · rw [hgen]
    intro heq
    have hlen := congrArg (fun s => s.data.length) heq
    simp only at hlen
    rw [data_append, data_append] at hlen
    simp only [List.length_append] at hlen
    have h6 : ("\n\n---\n").data.length = 6 := by decide
    rw [h6] at hlen
    omega
  · refine ⟨resp.text.data, ?_⟩
    rw [hgen]
    show ((resp.text ++ "\n\n---\n") ++ format_usage_section (extract_usage_info resp)).data = _
    rw [data_append, data_append, data_append]
    simp only [List.append_assoc]
  · cases hpt : (extract_usage_info resp).prompt_tokens with
    | none =>
      simp only [format_usage_section, hpt]
      exact joinLines_head_data _ _ (by simp)
    | some p =>
      simp only [format_usage_section, hpt]
      exact joinLines_head_data _ _ (by simp)

def wResp : GenResponse := ⟨"Laporan institusi.", some ⟨some 5, some 7, some 12⟩⟩

/-- Witness for C9: a first-attempt success returns text plus separator and
usage section. -/
theorem generate_report_success_witness :
    generate_report (fun _ _ => some wResp) emptyDS "general"
      = (wResp.text ++ "\n\n---\n" ++ format_usage_section (extract_usage_info wResp),
         extract_usage_info wResp) :=
  (generate_report_success (fun _ _ => some wResp) emptyDS "general" wResp rfl).1

end UniReport
